import Mathlib

/-!
Verification development for the ambulance dispatch and hospital matching
repository (src/app.py, src/database.py, src/scoring.py, src/config.py).

The Python sources are shallowly embedded:

* Real-number arithmetic of the scoring engine is modelled over the exact
  rationals; the rounding helper models the round function of the host
  language (round half to even) at a given number of decimal places.
* The haversine great-circle distance (src/scoring.py lines 57-68 and the
  identical copy in src/app.py lines 49-54) is transcendental, so it is
  embedded over the real numbers.  The parts of the system that consume a
  distance (score_hospital, rank_hospitals, find_nearest_driver) are
  embedded with the distance supplied as an explicit parameter, faithful to
  the remaining source text; the claims about those parts hold for every
  distance assignment.
* The SQLite state (tables sos_requests and ambulances) is modelled as
  association lists keyed by row id; an SQL UPDATE with a WHERE clause
  becomes a map over the list that rewrites the matching rows.  The
  append-only tables event_log and assignment_history and the hospital
  columns of sos_requests are not consulted by any claim and are omitted;
  socket emissions, which the claims do mention, are collected in a trace.
-/

/- ──────────────────────────────────────────────
   Lower-casing (models the lower method of the host language's strings
   for the basic latin range, exactly as the library's Char.toLower does;
   defined by structural recursion over the character list so that proofs
   can evaluate it)
   ────────────────────────────────────────────── -/

def lowerChar (c : Char) : Char :=
  if 65 ≤ c.toNat ∧ c.toNat ≤ 90 then Char.ofNat (c.toNat + 32) else c

def lowerStr (s : String) : String := ⟨s.data.map lowerChar⟩

/- ──────────────────────────────────────────────
   Rounding (models Python round(x, n): half to even)
   ────────────────────────────────────────────── -/

/-- Round a rational to the nearest integer, halves to the even neighbour
(the rounding used by the host language's round builtin). -/
def roundHalfEven (q : ℚ) : ℤ :=
  if q - (⌊q⌋ : ℚ) = 1/2 then (if ⌊q⌋ % 2 = 0 then ⌊q⌋ else ⌊q⌋ + 1) else round q

/-- Round a rational to n decimal places, halves to even. -/
def roundTo (n : ℕ) (q : ℚ) : ℚ :=
  (roundHalfEven (q * 10 ^ n) : ℚ) / 10 ^ n

/- ──────────────────────────────────────────────
   Configuration (src/config.py) — documented defaults
   ────────────────────────────────────────────── -/

def SEARCH_RADIUS_KM : ℚ := 15
def WEIGHT_FACILITY : ℚ := 3/10
def WEIGHT_DISTANCE : ℚ := 1/5
def WEIGHT_BEDS : ℚ := 1/5
def WEIGHT_SPECIALIST : ℚ := 3/20
def WEIGHT_PREDICTION : ℚ := 1/10
def WEIGHT_HISTORY : ℚ := 1/20
def AVG_AMBULANCE_SPEED_KMH : ℚ := 40

/- ──────────────────────────────────────────────
   Data model of a hospital row (src/database.py hospitals table,
   parsed by _parse_hospital; all columns have schema defaults)
   ────────────────────────────────────────────── -/

structure Hospital where
  id : ℕ
  latitude : ℚ
  longitude : ℚ
  specializations : List String
  facilities : List String
  total_beds : ℤ
  icu_beds : ℤ
  available_icu_beds : ℤ
  available_general_beds : ℤ
  doctors_on_duty : List String
  load_percentage : ℚ
  historical_success_rate : ℚ
deriving DecidableEq, Repr

/-- Requirement profile for one emergency type
(src/scoring.py EMERGENCY_REQUIREMENTS values). -/
structure Requirements where
  facilities : List String
  specialists : List String
  nice_to_have : List String
deriving DecidableEq, Repr

def generalRequirements : Requirements :=
  { facilities := ["Emergency Ward"]
    specialists := ["General Physician"]
    nice_to_have := ["ICU", "Blood Bank"] }

/-- src/scoring.py lines 18-54. -/
def EMERGENCY_REQUIREMENTS : List (String × Requirements) :=
  [ ("cardiac",
      { facilities := ["ICU", "Cath Lab", "Emergency Ward"]
        specialists := ["Cardiologist"]
        nice_to_have := ["MRI", "Operation Theatre", "Ventilator"] })
  , ("trauma",
      { facilities := ["ICU", "Trauma Center", "Emergency Ward", "Operation Theatre"]
        specialists := ["Trauma Surgeon"]
        nice_to_have := ["Blood Bank", "CT Scan", "Ventilator"] })
  , ("maternity",
      { facilities := ["Maternity Ward", "Operation Theatre", "NICU"]
        specialists := ["Obstetrician"]
        nice_to_have := ["Blood Bank", "ICU"] })
  , ("burns",
      { facilities := ["Burns Unit", "ICU", "Emergency Ward"]
        specialists := ["Burns Specialist"]
        nice_to_have := ["Operation Theatre", "Blood Bank", "Ventilator"] })
  , ("neuro",
      { facilities := ["ICU", "CT Scan", "MRI", "Emergency Ward"]
        specialists := ["Neurologist"]
        nice_to_have := ["Operation Theatre", "Ventilator"] })
  , ("general", generalRequirements)
  , ("accident",
      { facilities := ["ICU", "Trauma Center", "Emergency Ward", "Operation Theatre"]
        specialists := ["Trauma Surgeon", "Orthopedic Surgeon"]
        nice_to_have := ["Blood Bank", "CT Scan", "Ventilator", "Rehabilitation Center"] })
  ]

/-- EMERGENCY_REQUIREMENTS.get(etype, EMERGENCY_REQUIREMENTS["general"]). -/
def getRequirements (emergency_type : String) : Requirements :=
  match EMERGENCY_REQUIREMENTS.find? (fun p => p.1 == emergency_type) with
  | some p => p.2
  | none => generalRequirements

/- ──────────────────────────────────────────────
   Scoring engine (src/scoring.py)
   ────────────────────────────────────────────── -/

/-- src/scoring.py estimate_eta with the speed argument omitted
(the only way the repository calls it): the configured average speed is
substituted, and a non-positive configured speed falls back to 40. -/
def estimate_eta (distance_km : ℚ) : ℚ :=
  let speed := AVG_AMBULANCE_SPEED_KMH
  let speed := if speed ≤ 0 then 40 else speed
  distance_km / speed * 60

/-- src/scoring.py lines 79-100: facility match score, case-insensitive;
required facilities weighted 80 percent, nice-to-have 20 percent. -/
def calc_facility_score (h : Hospital) (req : Requirements) : ℚ :=
  let required := req.facilities
  let nice_to_have := req.nice_to_have
  if required = [] then 1/2
  else
    let hospital_set := h.facilities.map lowerStr
    let matched_required :=
      (required.filter (fun f => hospital_set.contains (lowerStr f))).length
    let matched_nice :=
      (nice_to_have.filter (fun f => hospital_set.contains (lowerStr f))).length
    let required_score : ℚ := (matched_required : ℚ) / (required.length : ℚ)
    let nice_score : ℚ :=
      if nice_to_have = [] then 1/2 else (matched_nice : ℚ) / (nice_to_have.length : ℚ)
    (4/5) * required_score + (1/5) * nice_score

/-- src/scoring.py lines 103-112 with max_radius_km omitted (as called by
score_hospital): the configured search radius is used, falling back to 15
if non-positive. -/
def calc_distance_score (distance_km : ℚ) : ℚ :=
  let max_r := SEARCH_RADIUS_KM
  let max_r := if max_r ≤ 0 then 15 else max_r
  max (1 - min (distance_km / max_r) 1) 0

/-- src/scoring.py lines 115-136: bed availability score. -/
def calc_bed_score (h : Hospital) : ℚ :=
  let icu_total := h.icu_beds
  let icu_avail := h.available_icu_beds
  let gen_avail := h.available_general_beds
  let total_beds := h.total_beds
  if icu_total ≤ 0 ∧ total_beds ≤ 0 then 1/2
  else
    let icu_score : ℚ := if 0 < icu_total then (icu_avail : ℚ) / (icu_total : ℚ) else 1/2
    let gen_score : ℚ := if 0 < total_beds then (gen_avail : ℚ) / (total_beds : ℚ) else 1/2
    let load := h.load_percentage / 100
    let load_bonus := 1 - load
    (1/2) * icu_score + (1/4) * gen_score + (1/4) * load_bonus

/-- src/scoring.py lines 139-151: specialist availability score,
case-insensitive. -/
def calc_specialist_score (h : Hospital) (req : Requirements) : ℚ :=
  let needed := req.specialists
  if needed = [] then 1/2
  else
    let on_duty := h.doctors_on_duty.map lowerStr
    let matched := (needed.filter (fun s => on_duty.contains (lowerStr s))).length
    (matched : ℚ) / (needed.length : ℚ)

/-- src/scoring.py lines 154-168: predicted bed availability at ETA,
linear decay of the bed score. -/
def calc_prediction_score (h : Hospital) (eta_minutes : ℚ) : ℚ :=
  let current_bed_score := calc_bed_score h
  let load := h.load_percentage / 100
  let eta_hours := eta_minutes / 60
  let fill_rate := load * (1/20)
  max 0 (current_bed_score - fill_rate * eta_hours)

/-- src/scoring.py lines 171-175. -/
def calc_history_score (h : Hospital) : ℚ :=
  h.historical_success_rate

/-- The weighted composite of score_hospital before the specialization
bonus (src/scoring.py lines 202-209, the local variable named total). -/
def score_hospital_pre_bonus (h : Hospital) (distance_km : ℚ) (emergency_type : String) : ℚ :=
  let requirements := getRequirements emergency_type
  let eta_minutes := estimate_eta distance_km
  WEIGHT_FACILITY * calc_facility_score h requirements
    + WEIGHT_DISTANCE * calc_distance_score distance_km
    + WEIGHT_BEDS * calc_bed_score h
    + WEIGHT_SPECIALIST * calc_specialist_score h requirements
    + WEIGHT_PREDICTION * calc_prediction_score h eta_minutes
    + WEIGHT_HISTORY * calc_history_score h

/-- The composite after the 10 percent specialization bonus capped at 1
(src/scoring.py lines 211-214). -/
def score_hospital_post_bonus (h : Hospital) (distance_km : ℚ) (emergency_type : String) : ℚ :=
  let total := score_hospital_pre_bonus h distance_km emergency_type
  if (h.specializations.map lowerStr).contains (lowerStr emergency_type) then
    min (total * (11/10)) 1
  else total

structure Scores where
  facility : ℚ
  distance : ℚ
  bed : ℚ
  specialist : ℚ
  prediction : ℚ
  history : ℚ
deriving DecidableEq, Repr

structure ScoredHospital where
  hospital : Hospital
  scores : Scores
  total_score : ℚ
  distance_km : ℚ
  eta_minutes : ℚ
deriving DecidableEq, Repr

/-- src/scoring.py lines 178-229 score_hospital.  The haversine distance
computed on line 190 is supplied as the parameter distance_km; everything
else follows the source, including the rounding of each reported field. -/
def score_hospital (h : Hospital) (distance_km : ℚ) (emergency_type : String) : ScoredHospital :=
  let requirements := getRequirements emergency_type
  let eta_minutes := estimate_eta distance_km
  { hospital := h
    scores :=
      { facility := roundTo 3 (calc_facility_score h requirements)
        distance := roundTo 3 (calc_distance_score distance_km)
        bed := roundTo 3 (calc_bed_score h)
        specialist := roundTo 3 (calc_specialist_score h requirements)
        prediction := roundTo 3 (calc_prediction_score h eta_minutes)
        history := roundTo 3 (calc_history_score h) }
    total_score := roundTo 4 (score_hospital_post_bonus h distance_km emergency_type)
    distance_km := roundTo 2 distance_km
    eta_minutes := roundTo 1 eta_minutes }

/- ──────────────────────────────────────────────
   Ranking (src/scoring.py rank_hospitals, lines 232-249)
   ────────────────────────────────────────────── -/

/-- The radius actually used by rank_hospitals: the Python expression
max_radius_km or SEARCH_RADIUS_KM substitutes the configured radius both
when the argument is absent and when it is the falsy value 0. -/
def effective_radius (max_radius_km : Option ℚ) : ℚ :=
  match max_radius_km with
  | some r => if r = 0 then SEARCH_RADIUS_KM else r
  | none => SEARCH_RADIUS_KM

/-- The scored list before sorting: every hospital is scored (with the
distance given by the dist parameter) and those whose reported distance_km
exceeds the effective radius are discarded, preserving input order. -/
def scored_candidates (hospitals : List Hospital) (dist : Hospital → ℚ)
    (emergency_type : String) (max_radius_km : Option ℚ) : List ScoredHospital :=
  (hospitals.map fun h => score_hospital h (dist h) emergency_type).filter
    fun r => r.distance_km ≤ effective_radius max_radius_km

/-- One step of the stable descending sort on total_score: x is placed
before the first element whose score does not exceed it, so equal scores
keep their input order. -/
def insert_desc (x : ScoredHospital) : List ScoredHospital → List ScoredHospital
  | [] => [x]
  | y :: ys => if y.total_score ≤ x.total_score then x :: y :: ys else y :: insert_desc x ys

/-- Stable sort of the candidates by total_score descending, modelling the
stable list sort with reverse=True of the source. -/
def sort_desc : List ScoredHospital → List ScoredHospital
  | [] => []
  | x :: xs => insert_desc x (sort_desc xs)

/-- src/scoring.py rank_hospitals: score, filter by radius, stable sort by
total score descending. -/
def rank_hospitals (hospitals : List Hospital) (dist : Hospital → ℚ)
    (emergency_type : String) (max_radius_km : Option ℚ) : List ScoredHospital :=
  sort_desc (scored_candidates hospitals dist emergency_type max_radius_km)

/- ──────────────────────────────────────────────
   Properties of the stable sort
   ────────────────────────────────────────────── -/

theorem mem_insert_desc {x y : ScoredHospital} {l : List ScoredHospital} :
    y ∈ insert_desc x l ↔ y = x ∨ y ∈ l := by
  induction l with
  | nil => simp [insert_desc]
  | cons z zs ih =>
    by_cases h : z.total_score ≤ x.total_score
    · simp [insert_desc, h]
    · simp [insert_desc, h, ih]
      tauto

theorem mem_sort_desc {y : ScoredHospital} {l : List ScoredHospital} :
    y ∈ sort_desc l ↔ y ∈ l := by
  induction l with
  | nil => simp [sort_desc]
  | cons z zs ih => simp [sort_desc, mem_insert_desc, ih]

theorem insert_desc_filter_eq (s : ℚ) (x : ScoredHospital) (l : List ScoredHospital)
    (hx : x.total_score = s) :
    (insert_desc x l).filter (fun r => decide (r.total_score = s))
      = x :: l.filter (fun r => decide (r.total_score = s)) := by
  induction l with
  | nil => simp [insert_desc, hx]
  | cons y ys ih =>
    by_cases h : y.total_score ≤ x.total_score
    · rw [insert_desc, if_pos h]
      simp [List.filter, hx]
    · have hy : ¬ y.total_score = s := fun he => h (by rw [he, ← hx])
      rw [insert_desc, if_neg h]
      simp [List.filter, hy, ih]

theorem insert_desc_filter_ne (s : ℚ) (x : ScoredHospital) (l : List ScoredHospital)
    (hx : ¬ x.total_score = s) :
    (insert_desc x l).filter (fun r => decide (r.total_score = s))
      = l.filter (fun r => decide (r.total_score = s)) := by
  induction l with
  | nil => simp [insert_desc, hx]
  | cons y ys ih =>
    by_cases h : y.total_score ≤ x.total_score
    · rw [insert_desc, if_pos h]
      simp [List.filter, hx]
    · rw [insert_desc, if_neg h]
      by_cases hy : y.total_score = s <;> simp [List.filter, hy, ih]

theorem sort_desc_filter (s : ℚ) (l : List ScoredHospital) :
    (sort_desc l).filter (fun r => decide (r.total_score = s))
      = l.filter (fun r => decide (r.total_score = s)) := by
  induction l with
  | nil => rfl
  | cons x xs ih =>
    by_cases hx : x.total_score = s
    · rw [sort_desc, insert_desc_filter_eq s x _ hx, ih]
      simp [List.filter, hx]
    · rw [sort_desc, insert_desc_filter_ne s x _ hx, ih]
      simp [List.filter, hx]

/- ──────────────────────────────────────────────
   Claims C6, C7, C8 about the scoring engine
   ────────────────────────────────────────────── -/

/-- The hospital of the worked example of the specification: all three
required cardiac facilities, one of the three nice-to-haves, 5 of 10 ICU
beds, 20 of 50 general beds, 40 percent load, the required cardiologist on
duty, history 0.8, and a declared cardiac specialization. -/
def cardiacHospital : Hospital :=
  { id := 1, latitude := 0, longitude := 0
    specializations := ["Cardiac"]
    facilities := ["ICU", "Cath Lab", "Emergency Ward", "MRI"]
    total_beds := 50, icu_beds := 10
    available_icu_beds := 5, available_general_beds := 20
    doctors_on_duty := ["Cardiologist"]
    load_percentage := 40, historical_success_rate := 4/5 }

/-- C6: on the worked example at distance 2 km (radius 15 km), the scorer
reports facility 0.867, distance 0.867, bed 0.5, specialist 1.0,
prediction 0.499, history 0.8; the pre-bonus composite rounds to 0.773 at
three decimals; the reported total (four decimals, after the 10 percent
specialization bonus) is 0.8506, which is 0.851 at three decimals. -/
theorem c6_worked_example :
    (score_hospital cardiacHospital 2 "cardiac").scores =
      { facility := 867/1000, distance := 867/1000, bed := 1/2
        specialist := 1, prediction := 499/1000, history := 4/5 }
    ∧ (score_hospital cardiacHospital 2 "cardiac").total_score = 8506/10000
    ∧ roundTo 3 (score_hospital_pre_bonus cardiacHospital 2 "cardiac") = 773/1000
    ∧ roundTo 3 (score_hospital_post_bonus cardiacHospital 2 "cardiac") = 851/1000 := by
  refine ⟨?_, ?_, ?_, ?_⟩ <;>
  · simp +decide [score_hospital, score_hospital_post_bonus, score_hospital_pre_bonus,
      calc_facility_score, calc_distance_score, calc_bed_score, calc_specialist_score,
      calc_prediction_score, calc_history_score, estimate_eta, getRequirements,
      EMERGENCY_REQUIREMENTS, generalRequirements, cardiacHospital, List.filter,
      SEARCH_RADIUS_KM, WEIGHT_FACILITY, WEIGHT_DISTANCE, WEIGHT_BEDS, WEIGHT_SPECIALIST,
      WEIGHT_PREDICTION, WEIGHT_HISTORY, AVG_AMBULANCE_SPEED_KMH, Scores.mk.injEq]
    norm_num [roundTo, roundHalfEven, round_eq, Int.fract]

/-- C7: every candidate in the ranked result has its reported distance
within the effective search radius; equivalently no hospital whose
computed distance exceeds the radius appears in the output. -/
theorem c7_radius_filter (hospitals : List Hospital) (dist : Hospital → ℚ)
    (emergency_type : String) (max_radius_km : Option ℚ) (r : ScoredHospital)
    (hr : r ∈ rank_hospitals hospitals dist emergency_type max_radius_km) :
    r.distance_km ≤ effective_radius max_radius_km := by
  have hmem : r ∈ scored_candidates hospitals dist emergency_type max_radius_km :=
    mem_sort_desc.mp hr
  have := (List.mem_filter.mp hmem).2
  exact of_decide_eq_true this

/-- Witness for C7 at a concrete input: a single hospital at distance 1. -/
theorem c7_radius_filter_witness :
    score_hospital cardiacHospital 1 "general"
        ∈ rank_hospitals [cardiacHospital] (fun _ => 1) "general" none
      ∧ (score_hospital cardiacHospital 1 "general").distance_km ≤ effective_radius none := by
  have hmem : score_hospital cardiacHospital 1 "general"
      ∈ rank_hospitals [cardiacHospital] (fun _ => 1) "general" none := by
    have : (score_hospital cardiacHospital 1 "general").distance_km
        ≤ effective_radius none := by
      simp [score_hospital, effective_radius, SEARCH_RADIUS_KM]
      norm_num [roundTo, roundHalfEven, round_eq, Int.fract]
    simp [rank_hospitals, scored_candidates, sort_desc, insert_desc, List.filter, this]
  exact ⟨hmem, c7_radius_filter [cardiacHospital] (fun _ => 1) "general" none _ hmem⟩

/-- C8: the ranking is stable — for every score value, the candidates of
the ranked output carrying that total score are exactly the candidates of
the (input-ordered) scored list carrying that score, in the same order. -/
theorem c8_stable_ties (hospitals : List Hospital) (dist : Hospital → ℚ)
    (emergency_type : String) (max_radius_km : Option ℚ) (s : ℚ) :
    (rank_hospitals hospitals dist emergency_type max_radius_km).filter
        (fun r => decide (r.total_score = s))
      = (scored_candidates hospitals dist emergency_type max_radius_km).filter
        (fun r => decide (r.total_score = s)) :=
  sort_desc_filter s _

/- ──────────────────────────────────────────────
   GeoMath (src/scoring.py lines 57-68; an identical copy is
   src/app.py lines 49-54) — claim C9
   ────────────────────────────────────────────── -/

/-- Degrees to radians, as the math.radians builtin. -/
noncomputable def radians (x : ℝ) : ℝ := x * (Real.pi / 180)

/-- src/scoring.py haversine: great-circle distance in km between two
coordinate pairs given in degrees, Earth radius 6371 km. -/
noncomputable def haversine (lat1 lon1 lat2 lon2 : ℝ) : ℝ :=
  let rlat1 := radians lat1
  let rlat2 := radians lat2
  let dlat := rlat2 - rlat1
  let dlon := radians lon2 - radians lon1
  let a := Real.sin (dlat / 2) ^ 2
    + Real.cos rlat1 * Real.cos rlat2 * Real.sin (dlon / 2) ^ 2
  let c := 2 * Real.arcsin (Real.sqrt a)
  c * 6371

/-- C9 counterexample: the haversine distance between the distinct
coordinate pairs (0, 0) and (0, 360) is zero, refuting the claim that the
distance is zero only if the coordinates are equal. -/
theorem c9_counterexample :
    haversine 0 0 0 360 = 0 ∧ ((0:ℝ), (0:ℝ)) ≠ ((0:ℝ), (360:ℝ)) := by
  constructor
  · simp only [haversine, radians]
    have h1 : ((360:ℝ) * (Real.pi / 180) - 0 * (Real.pi / 180)) / 2 = Real.pi := by ring
    have h2 : ((0:ℝ) * (Real.pi / 180) - 0 * (Real.pi / 180)) / 2 = 0 := by ring
    rw [h1, h2]
    simp [Real.sin_pi]
  · intro h
    have := congrArg Prod.snd h
    norm_num at this

/-- C9 amended: the haversine distance is symmetric and vanishes on equal
coordinate pairs (the zero-only-if-equal direction is refuted above). -/
theorem c9_symm_and_diag_zero :
    (∀ lat1 lon1 lat2 lon2 : ℝ,
        haversine lat1 lon1 lat2 lon2 = haversine lat2 lon2 lat1 lon1)
    ∧ (∀ lat lon : ℝ, haversine lat lon lat lon = 0) := by
  constructor
  · intro lat1 lon1 lat2 lon2
    have hs : ∀ x y : ℝ, Real.sin ((x - y) / 2) ^ 2 = Real.sin ((y - x) / 2) ^ 2 := by
      intro x y
      rw [show (x - y) / 2 = -((y - x) / 2) by ring, Real.sin_neg]
      ring
    simp only [haversine]
    rw [hs (radians lat2) (radians lat1), hs (radians lon2) (radians lon1),
      mul_comm (Real.cos (radians lat1)) (Real.cos (radians lat2))]
  · intro lat lon
    simp [haversine]

/- ──────────────────────────────────────────────
   Intake (src/app.py handle_sos, lines 149-177) — claim C10
   ────────────────────────────────────────────── -/

/-- The JSON body of a POST to the SOS intake route; every field of the
mapping may be absent. -/
structure SosPayload where
  latitude : Option ℚ
  longitude : Option ℚ
  emergency_type : Option String
  severity : Option String
  patient_notes : Option String
deriving DecidableEq, Repr

/-- Validation and defaulting portion of src/app.py handle_sos (lines
151-167): reject a missing body, default the emergency type to general and
the severity to medium, reject missing coordinates, reject an emergency
type with no catalog entry, and otherwise report the values with which
create_sos_request and get_best_hospitals are invoked. -/
def handle_sos (data : Option SosPayload) : Except String (ℚ × ℚ × String × String × String) :=
  match data with
  | none => .error "No JSON data provided"
  | some d =>
    let emergency_type := d.emergency_type.getD "general"
    let severity := d.severity.getD "medium"
    let notes := d.patient_notes.getD ""
    match d.latitude, d.longitude with
    | some lat, some lng =>
      if (EMERGENCY_REQUIREMENTS.map Prod.fst).contains emergency_type then
        .ok (lat, lng, emergency_type, severity, notes)
      else
        .error "Unknown type"
    | _, _ => .error "GPS coordinates required"

/-- C10: an intake request with valid coordinates but no emergency type
field (and no severity field) is accepted, and the SOS request is created
and scored with emergency type general and severity medium. -/
theorem c10_default_type (lat lng : ℚ) (notes : Option String) :
    handle_sos (some ⟨some lat, some lng, none, none, notes⟩)
      = .ok (lat, lng, "general", "medium", notes.getD "") := by
  simp +decide [handle_sos, EMERGENCY_REQUIREMENTS]

/- ──────────────────────────────────────────────
   Dispatch coordinator state
   (tables sos_requests and ambulances of src/database.py; coordinates are
   modelled as integers — every claim about the coordinator is independent
   of the numeric type of a coordinate, and the metric used by the nearest
   driver search is an explicit parameter throughout)
   ────────────────────────────────────────────── -/

inductive SosStatus where
  | pending | assigned | accepted | enroute | arrived | completed | cancelled
deriving DecidableEq, Repr

inductive AmbStatus where
  | available | busy | offline
deriving DecidableEq, Repr

/-- One row of the ambulances table (the claim-relevant columns). -/
structure AmbSt where
  status : AmbStatus
  current_sos : Option ℕ
  lat : ℤ
  lng : ℤ
deriving DecidableEq, Repr

/-- One row of the sos_requests table (the claim-relevant columns). -/
structure SosSt where
  status : SosStatus
  assigned_ambulance : Option ℕ
  lat : ℤ
  lng : ℤ
  assigned_at : Option ℕ
  accepted_at : Option ℕ
  enroute_at : Option ℕ
  arrived_at : Option ℕ
  completed_at : Option ℕ
deriving DecidableEq, Repr

/-- One socket emission. -/
structure Ev where
  etype : String
  sos_id : Option ℕ
  ambulance_id : Option ℕ
deriving DecidableEq, Repr

/-- The mutable state: the two tables as association lists in row order,
the trace of socket emissions (most recent first), and a clock supplying
the CURRENT_TIMESTAMP values. -/
structure World where
  soss : List (ℕ × SosSt)
  ambs : List (ℕ × AmbSt)
  trace : List Ev
  clock : ℕ
deriving DecidableEq, Repr

/-- Lookup of a row by id (SELECT ... WHERE id=?). -/
def lookupA {α : Type} (id : ℕ) (l : List (ℕ × α)) : Option α :=
  (l.find? (fun p => p.1 == id)).map (·.2)

/-- Rewrite of the rows matching an id (UPDATE ... WHERE id=?). -/
def updateA {α : Type} (id : ℕ) (f : α → α) (l : List (ℕ × α)) : List (ℕ × α) :=
  l.map fun p => if p.1 = id then (p.1, f p.2) else p

/-- Append a socket emission to the trace. -/
def emitEv (etype : String) (sos_id ambulance_id : Option ℕ) (w : World) : World :=
  { w with trace := ⟨etype, sos_id, ambulance_id⟩ :: w.trace }

/- ──────────────────────────────────────────────
   Database operations (src/database.py)
   ────────────────────────────────────────────── -/

def get_sos_request (sid : ℕ) (w : World) : Option SosSt :=
  lookupA sid w.soss

def get_ambulance_by_id (aid : ℕ) (w : World) : Option AmbSt :=
  lookupA aid w.ambs

/-- SELECT * FROM ambulances WHERE status='available', in table order. -/
def get_available_ambulances (w : World) : List (ℕ × AmbSt) :=
  w.ambs.filter (fun p => decide (p.2.status = AmbStatus.available))

/-- src/database.py lines 396-403: unconditionally point the request at
the ambulance with status assigned, and mark the ambulance busy. -/
def assign_ambulance_to_sos (sid aid : ℕ) (w : World) : World :=
  { w with
    soss := updateA sid (fun s =>
      { s with assigned_ambulance := some aid, status := SosStatus.assigned,
               assigned_at := some w.clock }) w.soss
    ambs := updateA aid (fun a =>
      { a with status := AmbStatus.busy, current_sos := some sid }) w.ambs }

/-- src/database.py lines 405-410: UPDATE ... WHERE id=? AND
assigned_ambulance_id=? — the row changes only when the acting ambulance
matches; no status precondition. -/
def accept_sos_request (sid aid : ℕ) (w : World) : World :=
  { w with soss := w.soss.map fun p =>
      if p.1 = sid ∧ p.2.assigned_ambulance = some aid then
        (p.1, { p.2 with status := SosStatus.accepted, accepted_at := some w.clock })
      else p }

/-- src/database.py lines 412-417, same guard shape as accept. -/
def enroute_sos_request (sid aid : ℕ) (w : World) : World :=
  { w with soss := w.soss.map fun p =>
      if p.1 = sid ∧ p.2.assigned_ambulance = some aid then
        (p.1, { p.2 with status := SosStatus.enroute, enroute_at := some w.clock })
      else p }

/-- src/database.py lines 419-424, same guard shape as accept. -/
def arrived_sos_request (sid aid : ℕ) (w : World) : World :=
  { w with soss := w.soss.map fun p =>
      if p.1 = sid ∧ p.2.assigned_ambulance = some aid then
        (p.1, { p.2 with status := SosStatus.arrived, arrived_at := some w.clock })
      else p }

/-- The SELECT assigned_ambulance_id FROM sos_requests WHERE id=? read
performed by complete_sos_request and unassign_ambulance_from_sos (the
truthiness test row and row-value collapses to this option). -/
def released_ambulance (sid : ℕ) (w : World) : Option ℕ :=
  match get_sos_request sid w with
  | some s => s.assigned_ambulance
  | none => none

/-- UPDATE ambulances SET status='available', current_sos_id=NULL WHERE
id=?, shared by complete and unassign. -/
def free_ambulance (aid : ℕ) (w : World) : World :=
  { w with ambs := updateA aid (fun a =>
      { a with status := AmbStatus.available, current_sos := none }) w.ambs }

/-- src/database.py lines 426-436: release the assigned ambulance if any
(without clearing the request's reference to it), then unconditionally
mark the request completed — no status and no acting-ambulance check. -/
def complete_sos_request (sid : ℕ) (w : World) : World :=
  let w1 :=
    match released_ambulance sid w with
    | some aid => free_ambulance aid w
    | none => w
  { w1 with soss := updateA sid (fun s =>
      { s with status := SosStatus.completed, completed_at := some w.clock }) w1.soss }

/-- src/database.py lines 438-447: release the assigned ambulance if any,
then reset the request to pending with the assignment fields cleared. -/
def unassign_ambulance_from_sos (sid : ℕ) (w : World) : World :=
  let w1 :=
    match released_ambulance sid w with
    | some aid => free_ambulance aid w
    | none => w
  { w1 with soss := updateA sid (fun s =>
      { s with assigned_ambulance := none, status := SosStatus.pending,
               assigned_at := none, accepted_at := none }) w1.soss }

/- ──────────────────────────────────────────────
   Application helpers and routes (src/app.py)
   ────────────────────────────────────────────── -/

/-- src/app.py lines 57-69 find_nearest_driver: scan the available pool in
table order keeping the strictly closest ambulance, so the first
encountered wins ties; dist is the haversine metric as a parameter.  (The
source also rounds the reported distance to two decimals; over integer
distances that rounding is the identity.) -/
def find_nearest_driver (dist : ℤ × ℤ → ℤ × ℤ → ℤ) (loc : ℤ × ℤ) (w : World) :
    Option (ℕ × ℤ) :=
  (get_available_ambulances w).foldl
    (fun best p =>
      let d := dist loc (p.2.lat, p.2.lng)
      match best with
      | none => some (p.1, d)
      | some (_, bd) => if d < bd then some (p.1, d) else best)
    none

/-- src/app.py lines 254-324 assign_ambulance (the dispatch route), with
the hospital bookkeeping (which touches no claim-relevant state) omitted:
look up the request, find the nearest available driver, claim it, emit the
assignment event.  The Boolean is the success of the response.  The accept
timeout armed on line 306 is modelled as the separate reassignment_check
operation below. -/
def assign_ambulance (dist : ℤ × ℤ → ℤ × ℤ → ℤ) (sid : ℕ) (w : World) : World × Bool :=
  match get_sos_request sid w with
  | none => (w, false)
  | some s =>
    match find_nearest_driver dist (s.lat, s.lng) w with
    | none => (w, false)
    | some (aid, _) =>
      (emitEv "driver_assignment" (some sid) (some aid)
        (assign_ambulance_to_sos sid aid w), true)

/-- src/app.py lines 395-410 driver_accept: performs the guarded update,
then emits driver_accepted and reports success unconditionally. -/
def driver_accept (sid aid : ℕ) (w : World) : World × Bool :=
  (emitEv "driver_accepted" (some sid) (some aid) (accept_sos_request sid aid w), true)

/-- src/app.py lines 413-425 driver_enroute. -/
def driver_enroute (sid aid : ℕ) (w : World) : World × Bool :=
  (emitEv "status_changed" (some sid) (some aid) (enroute_sos_request sid aid w), true)

/-- src/app.py lines 428-440 driver_arrived. -/
def driver_arrived (sid aid : ℕ) (w : World) : World × Bool :=
  (emitEv "status_changed" (some sid) (some aid) (arrived_sos_request sid aid w), true)

/-- src/app.py lines 458-469 driver_complete: the acting ambulance id is
used only in the emitted event, never checked. -/
def driver_complete (sid aid : ℕ) (w : World) : World × Bool :=
  (emitEv "trip_completed" (some sid) (some aid) (complete_sos_request sid w), true)

/-- src/app.py lines 507-549 admin_reassign: unassign the current driver,
then either claim the explicitly named ambulance (looked up with no
availability check) or auto-assign the nearest available driver. -/
def admin_reassign (dist : ℤ × ℤ → ℤ × ℤ → ℤ) (sid : ℕ) (new_amb : Option ℕ)
    (w : World) : World × Bool :=
  match get_sos_request sid w with
  | none => (w, false)
  | some s =>
    let w1 := unassign_ambulance_from_sos sid w
    match new_amb with
    | some aid =>
      match get_ambulance_by_id aid w1 with
      | none => (w1, false)
      | some _ =>
        (emitEv "driver_reassigned" (some sid) (some aid)
          (assign_ambulance_to_sos sid aid w1), true)
    | none =>
      match find_nearest_driver dist (s.lat, s.lng) w1 with
      | some (aid, _) =>
        (emitEv "driver_reassigned" (some sid) (some aid)
          (assign_ambulance_to_sos sid aid w1), true)
      | none => (w1, false)

/-- src/app.py lines 72-100, the deferred check of _schedule_reassignment:
if the request is still assigned, remember the currently assigned
ambulance, release it, re-run the nearest search over the now-available
pool, and reassign only when the found driver differs from the remembered
one; otherwise emit no_driver_available.  If the status is anything other
than assigned the check does nothing.  No new timer is armed by the check
itself. -/
def reassignment_check (dist : ℤ × ℤ → ℤ × ℤ → ℤ) (sid : ℕ) (w : World) : World :=
  match get_sos_request sid w with
  | none => w
  | some s =>
    if s.status = SosStatus.assigned then
      let old_amb := s.assigned_ambulance
      let w1 := unassign_ambulance_from_sos sid w
      match get_sos_request sid w1 with
      | none => w1
      | some s1 =>
        match find_nearest_driver dist (s1.lat, s1.lng) w1 with
        | some (aid, _) =>
          if some aid ≠ old_amb then
            emitEv "driver_reassigned" (some sid) (some aid)
              (assign_ambulance_to_sos sid aid w1)
          else emitEv "no_driver_available" (some sid) none w1
        | none => emitEv "no_driver_available" (some sid) none w1
    else w

/- ──────────────────────────────────────────────
   Operation sequences and the ambulance-uniqueness invariant (claim C1)
   ────────────────────────────────────────────── -/

/-- One system operation: a dispatch, a driver action, an administrative
reassignment, or the firing of a deferred reassignment check. -/
inductive Op where
  | dispatch (sid : ℕ)
  | accept (sid aid : ℕ)
  | enroute (sid aid : ℕ)
  | arrived (sid aid : ℕ)
  | complete (sid aid : ℕ)
  | adminReassign (sid : ℕ) (new_amb : Option ℕ)
  | timeout (sid : ℕ)
deriving DecidableEq, Repr

/-- Apply one operation atomically. -/
def step (dist : ℤ × ℤ → ℤ × ℤ → ℤ) : Op → World → World
  | Op.dispatch sid, w => (assign_ambulance dist sid w).1
  | Op.accept sid aid, w => (driver_accept sid aid w).1
  | Op.enroute sid aid, w => (driver_enroute sid aid w).1
  | Op.arrived sid aid, w => (driver_arrived sid aid w).1
  | Op.complete sid aid, w => (driver_complete sid aid w).1
  | Op.adminReassign sid amb, w => (admin_reassign dist sid amb w).1
  | Op.timeout sid, w => reassignment_check dist sid w

/-- Apply a sequence of operations in order. -/
def run (dist : ℤ × ℤ → ℤ × ℤ → ℤ) (ops : List Op) (w : World) : World :=
  ops.foldl (fun w op => step dist op w) w

/-- Every request row referencing some ambulance is the unique row
referencing it (terminal rows included). -/
def UniqueRef (soss : List (ℕ × SosSt)) : Prop :=
  ∀ p ∈ soss, ∀ q ∈ soss, p.2.assigned_ambulance.isSome →
    p.2.assigned_ambulance = q.2.assigned_ambulance → p.1 = q.1

/-- No request row references an ambulance whose status is available. -/
def AvailFree (soss : List (ℕ × SosSt)) (ambs : List (ℕ × AmbSt)) : Prop :=
  ∀ pa ∈ ambs, pa.2.status = AmbStatus.available →
    ∀ p ∈ soss, p.2.assigned_ambulance ≠ some pa.1

/-- The inductive invariant of the ambulance pool. -/
def PoolInv (w : World) : Prop := UniqueRef w.soss ∧ AvailFree w.soss w.ambs

def nonTerminal : SosStatus → Bool
  | SosStatus.completed => false
  | SosStatus.cancelled => false
  | _ => true

/-- The invariant exactly as claimed: at most one non-terminal request
references a given ambulance. -/
def ClaimInv (w : World) : Prop :=
  ∀ p ∈ w.soss, ∀ q ∈ w.soss,
    nonTerminal p.2.status = true → nonTerminal q.2.status = true →
    p.2.assigned_ambulance.isSome →
    p.2.assigned_ambulance = q.2.assigned_ambulance → p.1 = q.1

/- ──────────────────────────────────────────────
   Lemmas about the table primitives
   ────────────────────────────────────────────── -/

theorem mem_updateA {α : Type} {id : ℕ} {f : α → α} {l : List (ℕ × α)} {p : ℕ × α}
    (h : p ∈ updateA id f l) :
    (p ∈ l ∧ p.1 ≠ id) ∨ ∃ v, (id, v) ∈ l ∧ p = (id, f v) := by
  obtain ⟨q, hq, hqe⟩ := List.mem_map.mp h
  obtain ⟨k, v⟩ := q
  by_cases hid : k = id
  · subst hid
    right
    exact ⟨v, hq, by simpa using hqe.symm⟩
  · left
    rw [if_neg hid] at hqe
    exact ⟨hqe ▸ hq, by rw [← hqe]; exact hid⟩

theorem lookupA_mem {α : Type} {id : ℕ} {l : List (ℕ × α)} {v : α}
    (h : lookupA id l = some v) : (id, v) ∈ l := by
  unfold lookupA at h
  cases hf : l.find? (fun p => p.1 == id) with
  | none => rw [hf] at h; simp at h
  | some q =>
    rw [hf] at h
    simp only [Option.map_some'] at h
    have hm := List.mem_of_find?_eq_some hf
    have hp := List.find?_some hf
    obtain ⟨k, v'⟩ := q
    have hk : k = id := by simpa using hp
    have hv : v' = v := by simpa using h
    subst hk; subst hv
    exact hm

theorem find?_map_keyfix {α : Type} (g : ℕ × α → ℕ × α)
    (hg : ∀ p, (g p).1 = p.1) (id : ℕ) :
    ∀ l : List (ℕ × α),
      (l.map g).find? (fun p => p.1 == id) = (l.find? (fun p => p.1 == id)).map g := by
  intro l
  induction l with
  | nil => rfl
  | cons p t ih =>
    simp only [List.map_cons, List.find?_cons, hg p]
    cases hb : (p.1 == id) with
    | true => simp
    | false => simpa using ih

theorem lookupA_updateA_self {α : Type} (id : ℕ) (f : α → α) (l : List (ℕ × α)) :
    lookupA id (updateA id f l) = (lookupA id l).map f := by
  unfold lookupA updateA
  rw [find?_map_keyfix (fun p => if p.1 = id then (p.1, f p.2) else p)
    (fun p => by by_cases h : p.1 = id <;> simp [h]) id]
  cases hf : l.find? (fun p => p.1 == id) with
  | none => rfl
  | some q =>
    have hp : q.1 = id := by simpa using List.find?_some hf
    simp [hp]

theorem lookupA_updateA_ne {α : Type} {id tid : ℕ} (h : tid ≠ id)
    (f : α → α) (l : List (ℕ × α)) :
    lookupA tid (updateA id f l) = lookupA tid l := by
  unfold lookupA updateA
  rw [find?_map_keyfix (fun p => if p.1 = id then (p.1, f p.2) else p)
    (fun p => by by_cases hq : p.1 = id <;> simp [hq]) tid]
  cases hf : l.find? (fun p => p.1 == tid) with
  | none => rfl
  | some q =>
    have hp : q.1 = tid := by simpa using List.find?_some hf
    have : ¬ q.1 = id := by rw [hp]; exact h
    simp [this]

theorem lookupA_guardmap (sid : ℕ) (c : SosSt → Prop) [DecidablePred c]
    (f : SosSt → SosSt) (l : List (ℕ × SosSt)) :
    lookupA sid (l.map (fun p => if p.1 = sid ∧ c p.2 then (p.1, f p.2) else p))
      = (lookupA sid l).map (fun s => if c s then f s else s) := by
  unfold lookupA
  rw [find?_map_keyfix (fun p => if p.1 = sid ∧ c p.2 then (p.1, f p.2) else p)
    (fun p => by by_cases h : p.1 = sid ∧ c p.2 <;> simp [h]) sid]
  cases hf : l.find? (fun p => p.1 == sid) with
  | none => rfl
  | some q =>
    have hp : q.1 = sid := by simpa using List.find?_some hf
    by_cases hc : c q.2
    · simp [hp, hc]
    · simp [hp, hc]


/- ──────────────────────────────────────────────
   Projections of each operation (the table each one touches)
   ────────────────────────────────────────────── -/

theorem assign_soss (sid aid : ℕ) (w : World) :
    (assign_ambulance_to_sos sid aid w).soss
      = updateA sid (fun s =>
          { s with assigned_ambulance := some aid, status := SosStatus.assigned,
                   assigned_at := some w.clock }) w.soss := rfl

theorem assign_ambs (sid aid : ℕ) (w : World) :
    (assign_ambulance_to_sos sid aid w).ambs
      = updateA aid (fun a =>
          { a with status := AmbStatus.busy, current_sos := some sid }) w.ambs := rfl

theorem unassign_soss (sid : ℕ) (w : World) :
    (unassign_ambulance_from_sos sid w).soss
      = updateA sid (fun s =>
          { s with assigned_ambulance := none, status := SosStatus.pending,
                   assigned_at := none, accepted_at := none }) w.soss := by
  unfold unassign_ambulance_from_sos
  cases released_ambulance sid w <;> rfl

theorem unassign_ambs (sid : ℕ) (w : World) :
    (unassign_ambulance_from_sos sid w).ambs
      = match released_ambulance sid w with
        | some aid => updateA aid (fun a =>
            { a with status := AmbStatus.available, current_sos := none }) w.ambs
        | none => w.ambs := by
  unfold unassign_ambulance_from_sos
  cases released_ambulance sid w <;> rfl

theorem complete_soss (sid : ℕ) (w : World) :
    (complete_sos_request sid w).soss
      = updateA sid (fun s =>
          { s with status := SosStatus.completed, completed_at := some w.clock }) w.soss := by
  unfold complete_sos_request
  cases released_ambulance sid w <;> rfl

theorem released_ambulance_spec {sid : ℕ} {w : World} {a0 : ℕ}
    (h : released_ambulance sid w = some a0) :
    ∃ s, (sid, s) ∈ w.soss ∧ s.assigned_ambulance = some a0 := by
  unfold released_ambulance at h
  cases hs : get_sos_request sid w with
  | none => rw [hs] at h; exact absurd h (by simp)
  | some s => rw [hs] at h; exact ⟨s, lookupA_mem hs, h⟩

/- ──────────────────────────────────────────────
   Preservation of the pool invariant
   ────────────────────────────────────────────── -/

theorem mem_map_guard {l : List (ℕ × SosSt)} {gmap : ℕ × SosSt → ℕ × SosSt} {p : ℕ × SosSt}
    (hkey : ∀ q, (gmap q).1 = q.1)
    (hamb : ∀ q, (gmap q).2.assigned_ambulance = q.2.assigned_ambulance)
    (h : p ∈ l.map gmap) :
    ∃ q ∈ l, p.1 = q.1 ∧ p.2.assigned_ambulance = q.2.assigned_ambulance := by
  obtain ⟨q, hq, rfl⟩ := List.mem_map.mp h
  exact ⟨q, hq, hkey q, hamb q⟩

/-- A request-table map that changes neither keys nor assignment
references preserves both halves of the invariant. -/
theorem poolinv_statmap {soss : List (ℕ × SosSt)} {ambs : List (ℕ × AmbSt)}
    {gmap : ℕ × SosSt → ℕ × SosSt}
    (hkey : ∀ q, (gmap q).1 = q.1)
    (hamb : ∀ q, (gmap q).2.assigned_ambulance = q.2.assigned_ambulance)
    (h1 : UniqueRef soss) (h2 : AvailFree soss ambs) :
    UniqueRef (soss.map gmap) ∧ AvailFree (soss.map gmap) ambs := by
  constructor
  · intro p hp q hq hps hpq
    obtain ⟨p0, hp0, hpk, hpa⟩ := mem_map_guard hkey hamb hp
    obtain ⟨q0, hq0, hqk, hqa⟩ := mem_map_guard hkey hamb hq
    rw [hpk, hqk]
    exact h1 p0 hp0 q0 hq0 (by rw [← hpa]; exact hps) (by rw [← hpa, ← hqa]; exact hpq)
  · intro pa hpa hav p hp
    obtain ⟨p0, hp0, _, hpamb⟩ := mem_map_guard hkey hamb hp
    rw [hpamb]
    exact h2 pa hpa hav p0 hp0

theorem poolinv_accept {w : World} {sid aid : ℕ} (h : PoolInv w) :
    PoolInv (accept_sos_request sid aid w) :=
  poolinv_statmap
    (fun q => by by_cases hc : q.1 = sid ∧ q.2.assigned_ambulance = some aid <;> simp [hc])
    (fun q => by by_cases hc : q.1 = sid ∧ q.2.assigned_ambulance = some aid <;> simp [hc])
    h.1 h.2

theorem poolinv_enroute {w : World} {sid aid : ℕ} (h : PoolInv w) :
    PoolInv (enroute_sos_request sid aid w) :=
  poolinv_statmap
    (fun q => by by_cases hc : q.1 = sid ∧ q.2.assigned_ambulance = some aid <;> simp [hc])
    (fun q => by by_cases hc : q.1 = sid ∧ q.2.assigned_ambulance = some aid <;> simp [hc])
    h.1 h.2

theorem poolinv_arrived {w : World} {sid aid : ℕ} (h : PoolInv w) :
    PoolInv (arrived_sos_request sid aid w) :=
  poolinv_statmap
    (fun q => by by_cases hc : q.1 = sid ∧ q.2.assigned_ambulance = some aid <;> simp [hc])
    (fun q => by by_cases hc : q.1 = sid ∧ q.2.assigned_ambulance = some aid <;> simp [hc])
    h.1 h.2

/-- Claiming an ambulance that no request row references preserves the
pool invariant. -/
theorem poolinv_assign {w : World} {sid aid : ℕ}
    (h : PoolInv w) (hfree : ∀ p ∈ w.soss, p.2.assigned_ambulance ≠ some aid) :
    PoolInv (assign_ambulance_to_sos sid aid w) := by
  constructor
  · rw [assign_soss]
    intro p hp q hq hps hpq
    rcases mem_updateA hp with ⟨hpl, hpk⟩ | ⟨v, hvl, rfl⟩
    · rcases mem_updateA hq with ⟨hql, hqk⟩ | ⟨u, hul, rfl⟩
      · exact h.1 p hpl q hql hps hpq
      · exact absurd (by simpa using hpq) (hfree p hpl)
    · rcases mem_updateA hq with ⟨hql, hqk⟩ | ⟨u, hul, rfl⟩
      · exact absurd (by rw [← hpq]) (hfree q hql)
      · rfl
  · rw [assign_soss, assign_ambs]
    intro pa hpa hav p hp
    rcases mem_updateA hpa with ⟨hal, hak⟩ | ⟨v, hvl, rfl⟩
    · rcases mem_updateA hp with ⟨hpl, hpk⟩ | ⟨u, hul, rfl⟩
      · exact h.2 pa hal hav p hpl
      · simp only [ne_eq, Option.some.injEq]
        exact fun he => hak he.symm
    · exact absurd hav (by simp)

/-- Unassignment preserves the pool invariant: the released ambulance was
referenced only by the request row being cleared. -/
theorem poolinv_unassign {w : World} {sid : ℕ} (h : PoolInv w) :
    PoolInv (unassign_ambulance_from_sos sid w) := by
  constructor
  · rw [unassign_soss]
    intro p hp q hq hps hpq
    rcases mem_updateA hp with ⟨hpl, hpk⟩ | ⟨v, hvl, rfl⟩
    · rcases mem_updateA hq with ⟨hql, hqk⟩ | ⟨u, hul, rfl⟩
      · exact h.1 p hpl q hql hps hpq
      · rw [hpq] at hps
        exact absurd hps (by simp)
    · exact absurd hps (by simp)
  · rw [unassign_soss, unassign_ambs]
    cases hr : released_ambulance sid w with
    | none =>
      intro pa hpa hav p hp
      rcases mem_updateA hp with ⟨hpl, hpk⟩ | ⟨u, hul, rfl⟩
      · exact h.2 pa hpa hav p hpl
      · simp
    | some a0 =>
      obtain ⟨s, hsmem, hsa⟩ := released_ambulance_spec hr
      intro pa hpa hav p hp
      rcases mem_updateA hp with ⟨hpl, hpk⟩ | ⟨u, hul, rfl⟩
      · rcases mem_updateA hpa with ⟨hal, hak⟩ | ⟨v, hvl, rfl⟩
        · exact h.2 pa hal hav p hpl
        · simp only [ne_eq, Option.some.injEq]
          intro he
          exact hpk (h.1 p hpl (sid, s) hsmem (by rw [he]; rfl) (by rw [he, hsa]))
      · simp

/-- Emitting an event leaves the tables unchanged. -/
theorem poolinv_emit {t : String} {sid aid : Option ℕ} {w : World} (h : PoolInv w) :
    PoolInv (emitEv t sid aid w) := h

/- ──────────────────────────────────────────────
   The nearest search only returns available ambulances
   ────────────────────────────────────────────── -/

theorem nearest_fold_mem {dist : ℤ × ℤ → ℤ × ℤ → ℤ} {loc : ℤ × ℤ} :
    ∀ (l : List (ℕ × AmbSt)) (acc : Option (ℕ × ℤ)) (aid : ℕ) (d : ℤ),
      l.foldl (fun best p =>
        let d' := dist loc (p.2.lat, p.2.lng)
        match best with
        | none => some (p.1, d')
        | some (_, bd) => if d' < bd then some (p.1, d') else best) acc = some (aid, d) →
      acc = some (aid, d) ∨ ∃ p ∈ l, p.1 = aid := by
  intro l
  induction l with
  | nil => intro acc aid d h; exact Or.inl h
  | cons p t ih =>
    intro acc aid d h
    rw [List.foldl_cons] at h
    rcases ih _ aid d h with hacc | ⟨q, hq, hqa⟩
    · cases acc with
      | none =>
        dsimp only at hacc
        simp only [Option.some.injEq, Prod.mk.injEq] at hacc
        exact Or.inr ⟨p, List.mem_cons_self p t, hacc.1⟩
      | some b =>
        obtain ⟨bi, bd⟩ := b
        dsimp only at hacc
        by_cases hlt : dist loc (p.2.lat, p.2.lng) < bd
        · rw [if_pos hlt] at hacc
          simp only [Option.some.injEq, Prod.mk.injEq] at hacc
          exact Or.inr ⟨p, List.mem_cons_self p t, hacc.1⟩
        · rw [if_neg hlt] at hacc
          exact Or.inl hacc
    · exact Or.inr ⟨q, List.mem_cons_of_mem p hq, hqa⟩

theorem find_nearest_driver_mem {dist : ℤ × ℤ → ℤ × ℤ → ℤ} {loc : ℤ × ℤ}
    {w : World} {aid : ℕ} {d : ℤ}
    (h : find_nearest_driver dist loc w = some (aid, d)) :
    ∃ a : AmbSt, (aid, a) ∈ w.ambs ∧ a.status = AmbStatus.available := by
  unfold find_nearest_driver at h
  rcases nearest_fold_mem _ _ aid d h with hacc | ⟨p, hp, hpa⟩
  · exact absurd hacc (by simp)
  · obtain ⟨hmem, hst⟩ := List.mem_filter.mp hp
    refine ⟨p.2, ?_, of_decide_eq_true hst⟩
    rw [← hpa]
    exact hmem

/-- A driver found by the nearest search is referenced by no request row
(it is available, and available ambulances are unreferenced). -/
theorem nearest_free {dist : ℤ × ℤ → ℤ × ℤ → ℤ} {loc : ℤ × ℤ}
    {w : World} {aid : ℕ} {d : ℤ}
    (h2 : AvailFree w.soss w.ambs)
    (h : find_nearest_driver dist loc w = some (aid, d)) :
    ∀ p ∈ w.soss, p.2.assigned_ambulance ≠ some aid := by
  obtain ⟨a, hmem, hst⟩ := find_nearest_driver_mem h
  intro p hp
  exact h2 (aid, a) hmem hst p hp

/- ──────────────────────────────────────────────
   Preservation by whole operations
   ────────────────────────────────────────────── -/

theorem poolinv_dispatch {dist : ℤ × ℤ → ℤ × ℤ → ℤ} {sid : ℕ} {w : World}
    (h : PoolInv w) : PoolInv (assign_ambulance dist sid w).1 := by
  unfold assign_ambulance
  cases hs : get_sos_request sid w with
  | none => exact h
  | some s =>
    dsimp only
    cases hn : find_nearest_driver dist (s.lat, s.lng) w with
    | none => exact h
    | some pr =>
      obtain ⟨aid, d⟩ := pr
      exact poolinv_emit (poolinv_assign h (nearest_free h.2 hn))

theorem poolinv_admin_auto {dist : ℤ × ℤ → ℤ × ℤ → ℤ} {sid : ℕ} {w : World}
    (h : PoolInv w) : PoolInv (admin_reassign dist sid none w).1 := by
  unfold admin_reassign
  cases hs : get_sos_request sid w with
  | none => exact h
  | some s =>
    dsimp only
    have h1 : PoolInv (unassign_ambulance_from_sos sid w) := poolinv_unassign h
    cases hn : find_nearest_driver dist (s.lat, s.lng) (unassign_ambulance_from_sos sid w) with
    | none => simp only [hn]; exact h1
    | some pr =>
      obtain ⟨aid, d⟩ := pr
      simp only [hn]
      exact poolinv_emit (poolinv_assign h1 (nearest_free h1.2 hn))

theorem poolinv_timeout {dist : ℤ × ℤ → ℤ × ℤ → ℤ} {sid : ℕ} {w : World}
    (h : PoolInv w) : PoolInv (reassignment_check dist sid w) := by
  unfold reassignment_check
  cases hs : get_sos_request sid w with
  | none => exact h
  | some s =>
    dsimp only
    by_cases hst : s.status = SosStatus.assigned
    · rw [if_pos hst]
      have h1 : PoolInv (unassign_ambulance_from_sos sid w) := poolinv_unassign h
      cases hs1 : get_sos_request sid (unassign_ambulance_from_sos sid w) with
      | none => exact h1
      | some s1 =>
        dsimp only
        cases hn : find_nearest_driver dist (s1.lat, s1.lng)
            (unassign_ambulance_from_sos sid w) with
        | none => simp only [hn]; exact poolinv_emit h1
        | some pr =>
          obtain ⟨aid, d⟩ := pr
          simp only [hn]
          by_cases hne : some aid ≠ s.assigned_ambulance
          · rw [if_pos hne]
            exact poolinv_emit (poolinv_assign h1 (nearest_free h1.2 hn))
          · rw [if_neg hne]
            exact poolinv_emit h1
    · rw [if_neg hst]
      exact h

/-- The operations under which the invariant is inductive: everything
except completion (which frees the ambulance while leaving the completed
request's reference in place) and administrative reassignment to an
explicitly chosen ambulance (which performs no availability check). -/
def allowedOp : Op → Bool
  | Op.complete _ _ => false
  | Op.adminReassign _ (some _) => false
  | _ => true

theorem poolinv_step {dist : ℤ × ℤ → ℤ × ℤ → ℤ} {op : Op} {w : World}
    (hop : allowedOp op = true) (h : PoolInv w) : PoolInv (step dist op w) := by
  cases op with
  | dispatch sid => exact poolinv_dispatch h
  | accept sid aid => exact poolinv_emit (poolinv_accept h)
  | enroute sid aid => exact poolinv_emit (poolinv_enroute h)
  | arrived sid aid => exact poolinv_emit (poolinv_arrived h)
  | complete sid aid => exact absurd hop (by simp [allowedOp])
  | adminReassign sid amb =>
    cases amb with
    | none => exact poolinv_admin_auto h
    | some aid => exact absurd hop (by simp [allowedOp])
  | timeout sid => exact poolinv_timeout h

theorem poolinv_run {dist : ℤ × ℤ → ℤ × ℤ → ℤ} (ops : List Op) {w : World}
    (hops : ∀ op ∈ ops, allowedOp op = true) (h : PoolInv w) :
    PoolInv (run dist ops w) := by
  induction ops generalizing w with
  | nil => exact h
  | cons op t ih =>
    exact ih (fun o ho => hops o (List.mem_cons_of_mem op ho))
      (poolinv_step (hops op (List.mem_cons_self op t)) h)

theorem poolinv_claiminv {w : World} (h : UniqueRef w.soss) : ClaimInv w :=
  fun p hp q hq _ _ => h p hp q hq

/- ──────────────────────────────────────────────
   What each operation does to the looked-up request row
   ────────────────────────────────────────────── -/

theorem get_sos_accept (sid aid : ℕ) (w : World) :
    get_sos_request sid (accept_sos_request sid aid w)
      = (get_sos_request sid w).map (fun s =>
          if s.assigned_ambulance = some aid then
            { s with status := SosStatus.accepted, accepted_at := some w.clock }
          else s) := by
  unfold get_sos_request accept_sos_request
  exact lookupA_guardmap sid (fun s => s.assigned_ambulance = some aid)
    (fun s => { s with status := SosStatus.accepted, accepted_at := some w.clock }) w.soss

theorem get_sos_enroute (sid aid : ℕ) (w : World) :
    get_sos_request sid (enroute_sos_request sid aid w)
      = (get_sos_request sid w).map (fun s =>
          if s.assigned_ambulance = some aid then
            { s with status := SosStatus.enroute, enroute_at := some w.clock }
          else s) := by
  unfold get_sos_request enroute_sos_request
  exact lookupA_guardmap sid (fun s => s.assigned_ambulance = some aid)
    (fun s => { s with status := SosStatus.enroute, enroute_at := some w.clock }) w.soss

theorem get_sos_arrived (sid aid : ℕ) (w : World) :
    get_sos_request sid (arrived_sos_request sid aid w)
      = (get_sos_request sid w).map (fun s =>
          if s.assigned_ambulance = some aid then
            { s with status := SosStatus.arrived, arrived_at := some w.clock }
          else s) := by
  unfold get_sos_request arrived_sos_request
  exact lookupA_guardmap sid (fun s => s.assigned_ambulance = some aid)
    (fun s => { s with status := SosStatus.arrived, arrived_at := some w.clock }) w.soss

theorem get_sos_complete (sid : ℕ) (w : World) :
    get_sos_request sid (complete_sos_request sid w)
      = (get_sos_request sid w).map (fun s =>
          { s with status := SosStatus.completed, completed_at := some w.clock }) := by
  unfold get_sos_request
  rw [complete_soss]
  exact lookupA_updateA_self sid _ w.soss

theorem get_sos_unassign (sid : ℕ) (w : World) :
    get_sos_request sid (unassign_ambulance_from_sos sid w)
      = (get_sos_request sid w).map (fun s =>
          { s with assigned_ambulance := none, status := SosStatus.pending,
                   assigned_at := none, accepted_at := none }) := by
  unfold get_sos_request
  rw [unassign_soss]
  exact lookupA_updateA_self sid _ w.soss

theorem get_sos_assign (sid aid : ℕ) (w : World) :
    get_sos_request sid (assign_ambulance_to_sos sid aid w)
      = (get_sos_request sid w).map (fun s =>
          { s with assigned_ambulance := some aid, status := SosStatus.assigned,
                   assigned_at := some w.clock }) := by
  unfold get_sos_request
  rw [assign_soss]
  exact lookupA_updateA_self sid _ w.soss

/-- A map whose function fixes every element of the list is the identity. -/
theorem map_noop {α : Type} (l : List α) (f : α → α) (h : ∀ a ∈ l, f a = a) :
    l.map f = l := by
  induction l with
  | nil => rfl
  | cons x t ih =>
    rw [List.map_cons, h x (List.mem_cons_self x t),
      ih (fun a ha => h a (List.mem_cons_of_mem x ha))]

/- Decidability of the invariants, for evaluation at concrete states. -/

instance (soss : List (ℕ × SosSt)) : Decidable (UniqueRef soss) := by
  unfold UniqueRef; infer_instance

instance (soss : List (ℕ × SosSt)) (ambs : List (ℕ × AmbSt)) :
    Decidable (AvailFree soss ambs) := by
  unfold AvailFree; infer_instance

instance (w : World) : Decidable (PoolInv w) := by
  unfold PoolInv; infer_instance

instance (w : World) : Decidable (ClaimInv w) := by
  unfold ClaimInv; infer_instance

/- ──────────────────────────────────────────────
   Concrete states for evaluation
   ────────────────────────────────────────────── -/

/-- An example metric for concrete runs (any function works; the claims
about the coordinator hold for every metric). -/
def distEx : ℤ × ℤ → ℤ × ℤ → ℤ := fun a b => |a.1 - b.1| + |a.2 - b.2|

def mkSos (st : SosStatus) (amb : Option ℕ) (lat lng : ℤ) : SosSt :=
  { status := st, assigned_ambulance := amb, lat := lat, lng := lng,
    assigned_at := none, accepted_at := none, enroute_at := none,
    arrived_at := none, completed_at := none }

def mkAmb (st : AmbStatus) (cur : Option ℕ) (lat lng : ℤ) : AmbSt :=
  { status := st, current_sos := cur, lat := lat, lng := lng }

/- ──────────────────────────────────────────────
   Claim C1
   ────────────────────────────────────────────── -/

/-- Request 1 is assigned to the only ambulance; request 2 is pending. -/
def c1w : World :=
  { soss := [(1, mkSos SosStatus.assigned (some 1) 0 0),
             (2, mkSos SosStatus.pending none 0 0)]
    ambs := [(1, mkAmb AmbStatus.busy (some 1) 0 0)]
    trace := [], clock := 0 }

/-- C1 counterexample: from a state satisfying even the strong pool
invariant (each ambulance referenced by at most one request, available
ambulances unreferenced), a single administrative reassignment of request
2 to the explicitly named ambulance 1 — which is already serving request
1 and is claimed with no availability check — leaves two non-terminal
requests referencing ambulance 1. -/
theorem c1_counterexample :
    PoolInv c1w
    ∧ ¬ ClaimInv (run distEx [Op.adminReassign 2 (some 1)] c1w) := by
  constructor
  · decide
  · decide

/-- C1 amended: along every sequence of dispatches, driver accept, enroute
and arrived actions, timeout checks and automatic (nearest-driver)
administrative reassignments — that is, excluding completion and
explicit-ambulance administrative reassignment — the pool invariant, and
with it the claimed at-most-one-non-terminal-reference property, is
preserved from any state satisfying the pool invariant. -/
theorem c1_invariant_preserved (dist : ℤ × ℤ → ℤ × ℤ → ℤ) (ops : List Op) (w : World)
    (hops : ∀ op ∈ ops, allowedOp op = true) (hw : PoolInv w) :
    PoolInv (run dist ops w) ∧ ClaimInv (run dist ops w) := by
  have h := @poolinv_run dist ops w hops hw
  exact ⟨h, poolinv_claiminv h.1⟩

/-- A pending request and two available ambulances. -/
def c1wit : World :=
  { soss := [(1, mkSos SosStatus.pending none 0 0)]
    ambs := [(1, mkAmb AmbStatus.available none 1 0),
             (2, mkAmb AmbStatus.available none 5 0)]
    trace := [], clock := 0 }

theorem c1_invariant_preserved_witness :
    ((∀ op ∈ [Op.dispatch 1, Op.accept 1 1, Op.timeout 1], allowedOp op = true)
      ∧ PoolInv c1wit)
    ∧ ClaimInv (run distEx [Op.dispatch 1, Op.accept 1 1, Op.timeout 1] c1wit) :=
  ⟨⟨by decide, by decide⟩,
    (c1_invariant_preserved distEx [Op.dispatch 1, Op.accept 1 1, Op.timeout 1] c1wit
      (by decide) (by decide)).2⟩

/- ──────────────────────────────────────────────
   Claim C2
   ────────────────────────────────────────────── -/

def c2w : World :=
  { soss := [(1, mkSos SosStatus.accepted (some 1) 0 0)]
    ambs := [(1, mkAmb AmbStatus.busy (some 1) 0 0)]
    trace := [], clock := 0 }

/-- C2 counterexample: request 1 is assigned to ambulance 1, yet a
complete action by ambulance 2 is not rejected: it changes the status to
completed and the route reports success. -/
theorem c2_counterexample :
    (get_sos_request 1 c2w).map (fun s => s.assigned_ambulance) = some (some 1)
    ∧ (2 : ℕ) ≠ 1
    ∧ (get_sos_request 1 (driver_complete 1 2 c2w).1).map (fun s => s.status)
        = some SosStatus.completed
    ∧ (driver_complete 1 2 c2w).2 = true := by
  refine ⟨by decide, by decide, by decide, by decide⟩

/-- C2 amended: the accept, enroute and arrived actions with an acting
ambulance different from the assignment of every row of the request do
leave the request table unchanged, but the mismatch is not surfaced — each
route reports success; the complete action (shown above) performs no
ambulance check at all. -/
theorem c2_mismatch_silent (w : World) (sid aid : ℕ)
    (hmis : ∀ p ∈ w.soss, p.1 = sid → p.2.assigned_ambulance ≠ some aid) :
    ((driver_accept sid aid w).1.soss = w.soss ∧ (driver_accept sid aid w).2 = true)
    ∧ ((driver_enroute sid aid w).1.soss = w.soss ∧ (driver_enroute sid aid w).2 = true)
    ∧ ((driver_arrived sid aid w).1.soss = w.soss ∧ (driver_arrived sid aid w).2 = true) := by
  have key : ∀ f : SosSt → SosSt,
      (w.soss.map fun p =>
        if p.1 = sid ∧ p.2.assigned_ambulance = some aid then (p.1, f p.2) else p) = w.soss := by
    intro f
    refine map_noop _ _ (fun p hp => ?_)
    rw [if_neg]
    rintro ⟨h1, h2⟩
    exact hmis p hp h1 h2
  exact ⟨⟨key (fun s => { s with status := SosStatus.accepted, accepted_at := some w.clock }), rfl⟩,
    ⟨key (fun s => { s with status := SosStatus.enroute, enroute_at := some w.clock }), rfl⟩,
    ⟨key (fun s => { s with status := SosStatus.arrived, arrived_at := some w.clock }), rfl⟩⟩

def c2wit : World :=
  { soss := [(1, mkSos SosStatus.assigned (some 1) 0 0)]
    ambs := [(1, mkAmb AmbStatus.busy (some 1) 0 0)]
    trace := [], clock := 0 }

theorem c2_mismatch_silent_witness :
    (∀ p ∈ c2wit.soss, p.1 = 1 → p.2.assigned_ambulance ≠ some 2)
    ∧ ((driver_accept 1 2 c2wit).1.soss = c2wit.soss
        ∧ (driver_accept 1 2 c2wit).2 = true) :=
  ⟨by decide, (c2_mismatch_silent c2wit 1 2 (by decide)).1⟩

/- ──────────────────────────────────────────────
   Claim C3
   ────────────────────────────────────────────── -/

def c3w : World :=
  { soss := [(1, mkSos SosStatus.pending none 0 0)]
    ambs := []
    trace := [], clock := 0 }

/-- C3 counterexample: a complete action on a request whose status is
pending (not arrived) is not rejected — the status jumps straight from
pending to completed, which is no edge of the claimed state machine. -/
theorem c3_counterexample :
    (get_sos_request 1 c3w).map (fun s => s.status) = some SosStatus.pending
    ∧ (get_sos_request 1 (driver_complete 1 1 c3w).1).map (fun s => s.status)
        = some SosStatus.completed := by
  refine ⟨by decide, by decide⟩

/-- C3 amended: the transitions are guarded only by the acting-ambulance
match, never by the current status.  Accept, enroute and arrived move a
request with a matching assignment to accepted, enroute and arrived
respectively from any current status; complete moves any request to
completed unconditionally; unassignment (timeout or administrative) moves
any request to pending. -/
theorem c3_transition_structure (w : World) (sid aid : ℕ) (s : SosSt)
    (hs : get_sos_request sid w = some s) :
    get_sos_request sid (driver_accept sid aid w).1
      = some (if s.assigned_ambulance = some aid then
          { s with status := SosStatus.accepted, accepted_at := some w.clock } else s)
    ∧ get_sos_request sid (driver_enroute sid aid w).1
      = some (if s.assigned_ambulance = some aid then
          { s with status := SosStatus.enroute, enroute_at := some w.clock } else s)
    ∧ get_sos_request sid (driver_arrived sid aid w).1
      = some (if s.assigned_ambulance = some aid then
          { s with status := SosStatus.arrived, arrived_at := some w.clock } else s)
    ∧ get_sos_request sid (driver_complete sid aid w).1
      = some { s with status := SosStatus.completed, completed_at := some w.clock }
    ∧ get_sos_request sid (unassign_ambulance_from_sos sid w)
      = some { s with assigned_ambulance := none, status := SosStatus.pending,
                      assigned_at := none, accepted_at := none } := by
  refine ⟨?_, ?_, ?_, ?_, ?_⟩
  · show get_sos_request sid (accept_sos_request sid aid w) = _
    rw [get_sos_accept, hs, Option.map_some']
  · show get_sos_request sid (enroute_sos_request sid aid w) = _
    rw [get_sos_enroute, hs, Option.map_some']
  · show get_sos_request sid (arrived_sos_request sid aid w) = _
    rw [get_sos_arrived, hs, Option.map_some']
  · show get_sos_request sid (complete_sos_request sid w) = _
    rw [get_sos_complete, hs, Option.map_some']
  · rw [get_sos_unassign, hs, Option.map_some']

def c3wit : World :=
  { soss := [(1, mkSos SosStatus.enroute (some 1) 0 0)]
    ambs := [(1, mkAmb AmbStatus.busy (some 1) 0 0)]
    trace := [], clock := 0 }

theorem c3_transition_structure_witness :
    get_sos_request 1 c3wit = some (mkSos SosStatus.enroute (some 1) 0 0)
    ∧ get_sos_request 1 (driver_accept 1 1 c3wit).1
      = some (if (mkSos SosStatus.enroute (some 1) 0 0).assigned_ambulance = some 1 then
          { mkSos SosStatus.enroute (some 1) 0 0 with
              status := SosStatus.accepted, accepted_at := some c3wit.clock }
          else mkSos SosStatus.enroute (some 1) 0 0) :=
  ⟨by decide, (c3_transition_structure c3wit 1 1 (mkSos SosStatus.enroute (some 1) 0 0)
    (by decide)).1⟩

/- ──────────────────────────────────────────────
   Claim C4
   ────────────────────────────────────────────── -/

/-- Request 1 is in a second assignment cycle with ambulance 2 (after an
earlier cycle with ambulance 1, whose accept timer is still pending);
ambulance 1 is available again and closer. -/
def c4w : World :=
  { soss := [(1, mkSos SosStatus.assigned (some 2) 0 0)]
    ambs := [(1, mkAmb AmbStatus.available none 0 0),
             (2, mkAmb AmbStatus.busy (some 1) 10 0)]
    trace := [], clock := 0 }

/-- C4 counterexample: the deferred check fires on a request whose current
assignment (ambulance 2) differs from the ambulance of the earlier cycle
that armed the timer (ambulance 1); the claim says the check must be a
no-op, but the code — whose guard inspects only the status and captures no
ambulance id — tears down the newer cycle and reassigns the request. -/
theorem c4_counterexample :
    (get_sos_request 1 c4w).map (fun s => s.status) = some SosStatus.assigned
    ∧ (get_sos_request 1 c4w).map (fun s => s.assigned_ambulance) = some (some 2)
    ∧ (get_sos_request 1 (reassignment_check distEx 1 c4w)).map
        (fun s => s.assigned_ambulance) = some (some 1) := by
  refine ⟨by decide, by decide, by decide⟩

/-- C4 amended: the deferred check is a no-op exactly in the cases where
the request is missing or its status is not assigned; there is no
comparison against an arming-time ambulance id. -/
theorem c4_noop_when_not_assigned (dist : ℤ × ℤ → ℤ × ℤ → ℤ) (sid : ℕ) (w : World)
    (h : (get_sos_request sid w).map (fun s => s.status) ≠ some SosStatus.assigned) :
    reassignment_check dist sid w = w := by
  unfold reassignment_check
  cases hs : get_sos_request sid w with
  | none => rfl
  | some s =>
    dsimp only
    rw [if_neg (fun he => h (by rw [hs, Option.map_some', he]))]

def c4wit : World :=
  { soss := [(1, mkSos SosStatus.accepted (some 1) 0 0)]
    ambs := [(1, mkAmb AmbStatus.busy (some 1) 0 0)]
    trace := [], clock := 0 }

theorem c4_noop_when_not_assigned_witness :
    ((get_sos_request 1 c4wit).map (fun s => s.status) ≠ some SosStatus.assigned)
    ∧ reassignment_check distEx 1 c4wit = c4wit :=
  ⟨by decide, c4_noop_when_not_assigned distEx 1 c4wit (by decide)⟩

/- ──────────────────────────────────────────────
   Claim C5
   ────────────────────────────────────────────── -/

theorem assign_trace (sid aid : ℕ) (w : World) :
    (assign_ambulance_to_sos sid aid w).trace = w.trace := rfl

theorem unassign_trace (sid : ℕ) (w : World) :
    (unassign_ambulance_from_sos sid w).trace = w.trace := by
  unfold unassign_ambulance_from_sos
  cases released_ambulance sid w <;> rfl

theorem emit_trace (t : String) (si ai : Option ℕ) (w : World) :
    (emitEv t si ai w).trace = ⟨t, si, ai⟩ :: w.trace := rfl

/-- Request 1 is assigned to ambulance 1, which has not accepted;
ambulance 2 is available and farther away. -/
def c5w : World :=
  { soss := [(1, mkSos SosStatus.assigned (some 1) 0 0)]
    ambs := [(1, mkAmb AmbStatus.busy (some 1) 0 0),
             (2, mkAmb AmbStatus.available none 10 0)]
    trace := [], clock := 0 }

/-- C5 counterexample: ambulance 2 is available and distinct from the
non-responding ambulance 1, so the claim requires it to be claimed and a
reassignment event emitted; instead the check releases ambulance 1 back
into the searched pool, finds it nearest again, and — because the found
driver equals the old one — emits no_driver_available and leaves the
request pending and unassigned. -/
theorem c5_counterexample :
    (get_ambulance_by_id 2 c5w).map (fun a => a.status) = some AmbStatus.available
    ∧ (get_sos_request 1 c5w).map (fun s => s.assigned_ambulance) = some (some 1)
    ∧ (get_sos_request 1 (reassignment_check distEx 1 c5w)).map (fun s => s.status)
        = some SosStatus.pending
    ∧ (get_sos_request 1 (reassignment_check distEx 1 c5w)).map
        (fun s => s.assigned_ambulance) = some none
    ∧ (reassignment_check distEx 1 c5w).trace
        = [⟨"no_driver_available", some 1, none⟩] := by
  refine ⟨by decide, by decide, by decide, by decide, by decide⟩

/-- C5 amended: when the check fires on a request still in assigned
status, the assigned ambulance is released and the nearest search re-runs
over all available ambulances, the released one included.  If the found
driver differs from the released one it is claimed and a driver_reassigned
event is emitted (no fresh timer is armed by the check); otherwise —
including when the released ambulance itself is the nearest even though
other ambulances are available — a no_driver_available event is emitted
and the request stays pending and unassigned. -/
theorem c5_check_on_assigned (dist : ℤ × ℤ → ℤ × ℤ → ℤ) (sid : ℕ) (w : World) (s : SosSt)
    (hs : get_sos_request sid w = some s) (hst : s.status = SosStatus.assigned) :
    (∀ aid d, find_nearest_driver dist (s.lat, s.lng)
        (unassign_ambulance_from_sos sid w) = some (aid, d) →
      some aid ≠ s.assigned_ambulance →
      (get_sos_request sid (reassignment_check dist sid w)).map (fun r => r.status)
          = some SosStatus.assigned
        ∧ (get_sos_request sid (reassignment_check dist sid w)).map
            (fun r => r.assigned_ambulance) = some (some aid)
        ∧ (reassignment_check dist sid w).trace
          = ⟨"driver_reassigned", some sid, some aid⟩ :: w.trace)
    ∧ (∀ aid d, find_nearest_driver dist (s.lat, s.lng)
        (unassign_ambulance_from_sos sid w) = some (aid, d) →
      some aid = s.assigned_ambulance →
      (get_sos_request sid (reassignment_check dist sid w)).map (fun r => r.status)
          = some SosStatus.pending
        ∧ (get_sos_request sid (reassignment_check dist sid w)).map
            (fun r => r.assigned_ambulance) = some none
        ∧ (reassignment_check dist sid w).trace
          = ⟨"no_driver_available", some sid, none⟩ :: w.trace)
    ∧ (find_nearest_driver dist (s.lat, s.lng)
        (unassign_ambulance_from_sos sid w) = none →
      (get_sos_request sid (reassignment_check dist sid w)).map (fun r => r.status)
          = some SosStatus.pending
        ∧ (get_sos_request sid (reassignment_check dist sid w)).map
            (fun r => r.assigned_ambulance) = some none
        ∧ (reassignment_check dist sid w).trace
          = ⟨"no_driver_available", some sid, none⟩ :: w.trace) := by
  have hs1 : get_sos_request sid (unassign_ambulance_from_sos sid w)
      = some { s with assigned_ambulance := none, status := SosStatus.pending,
                      assigned_at := none, accepted_at := none } := by
    rw [get_sos_unassign, hs, Option.map_some']
  have hcheck : reassignment_check dist sid w
      = match find_nearest_driver dist (s.lat, s.lng)
          (unassign_ambulance_from_sos sid w) with
        | some (aid, _) =>
          if some aid ≠ s.assigned_ambulance then
            emitEv "driver_reassigned" (some sid) (some aid)
              (assign_ambulance_to_sos sid aid (unassign_ambulance_from_sos sid w))
          else emitEv "no_driver_available" (some sid) none
            (unassign_ambulance_from_sos sid w)
        | none => emitEv "no_driver_available" (some sid) none
            (unassign_ambulance_from_sos sid w) := by
    unfold reassignment_check
    rw [hs]
    dsimp only
    rw [if_pos hst, hs1]
  refine ⟨?_, ?_, ?_⟩
  · intro aid d hfn hne
    rw [hcheck, hfn]
    dsimp only
    rw [if_pos hne]
    have hga : get_sos_request sid
        (emitEv "driver_reassigned" (some sid) (some aid)
          (assign_ambulance_to_sos sid aid (unassign_ambulance_from_sos sid w)))
        = some { s with assigned_ambulance := some aid, status := SosStatus.assigned,
                        assigned_at := some (unassign_ambulance_from_sos sid w).clock,
                        accepted_at := none } := by
      show get_sos_request sid
        (assign_ambulance_to_sos sid aid (unassign_ambulance_from_sos sid w)) = _
      rw [get_sos_assign, hs1, Option.map_some']
    rw [hga, emit_trace, assign_trace, unassign_trace]
    exact ⟨rfl, rfl, rfl⟩
  · intro aid d hfn heq
    rw [hcheck, hfn]
    dsimp only
    rw [if_neg (fun hcon => hcon heq)]
    have hge : get_sos_request sid
        (emitEv "no_driver_available" (some sid) none (unassign_ambulance_from_sos sid w))
        = some { s with assigned_ambulance := none, status := SosStatus.pending,
                        assigned_at := none, accepted_at := none } := hs1
    rw [hge, emit_trace, unassign_trace]
    exact ⟨rfl, rfl, rfl⟩
  · intro hfn
    rw [hcheck, hfn]
    have hge : get_sos_request sid
        (emitEv "no_driver_available" (some sid) none (unassign_ambulance_from_sos sid w))
        = some { s with assigned_ambulance := none, status := SosStatus.pending,
                        assigned_at := none, accepted_at := none } := hs1
    rw [hge, emit_trace, unassign_trace]
    exact ⟨rfl, rfl, rfl⟩

/-- Request 1 is assigned to ambulance 2; ambulance 1 is available and
nearer, so the check claims it. -/
def c5wit : World :=
  { soss := [(1, mkSos SosStatus.assigned (some 2) 0 0)]
    ambs := [(1, mkAmb AmbStatus.available none 1 0),
             (2, mkAmb AmbStatus.busy (some 1) 10 0)]
    trace := [], clock := 0 }

theorem c5_check_on_assigned_witness :
    (get_sos_request 1 c5wit = some (mkSos SosStatus.assigned (some 2) 0 0)
      ∧ (mkSos SosStatus.assigned (some 2) 0 0).status = SosStatus.assigned
      ∧ find_nearest_driver distEx
          ((mkSos SosStatus.assigned (some 2) 0 0).lat,
           (mkSos SosStatus.assigned (some 2) 0 0).lng)
          (unassign_ambulance_from_sos 1 c5wit) = some (1, 1)
      ∧ some 1 ≠ (mkSos SosStatus.assigned (some 2) 0 0).assigned_ambulance)
    ∧ ((get_sos_request 1 (reassignment_check distEx 1 c5wit)).map (fun r => r.status)
          = some SosStatus.assigned
      ∧ (get_sos_request 1 (reassignment_check distEx 1 c5wit)).map
          (fun r => r.assigned_ambulance) = some (some 1)
      ∧ (reassignment_check distEx 1 c5wit).trace
          = ⟨"driver_reassigned", some 1, some 1⟩ :: c5wit.trace) :=
  ⟨⟨by decide, by decide, by decide, by decide⟩,
    (c5_check_on_assigned distEx 1 c5wit (mkSos SosStatus.assigned (some 2) 0 0)
      (by decide) (by decide)).1 1 1 (by decide) (by decide)⟩
